import Mathlib

/-
Shallow embedding of the civic-issue predictive risk engine (the ml-service
package: services/data_processor.py, services/ml_models.py,
services/visualization.py, main.py).

Numeric values are modelled as rationals.  Calls into external numeric
libraries that return irrational values (np.sqrt, np.cos) or random draws
(np.random.uniform, predict_proba outputs) are modelled as explicit
parameters, constrained in the theorems by the support of the distribution
or the documented range of the library call.
-/

namespace Civic

/-- A single feature value as stored in a pandas column or a Python feature
dict: a number, a string label, a boolean, or the (irrational) square root
of a nonnegative rational, kept symbolic. -/
inductive FeatureValue where
  | num : ℚ → FeatureValue
  | str : String → FeatureValue
  | bool : Bool → FeatureValue
  | sqrtVal : ℚ → FeatureValue
deriving Repr, DecidableEq

/-- Mean of a list of rationals; np.mean of a nonempty list.  Callers in the
source guard against the empty list, on which this returns 0 (division by
zero in ℚ). -/
def listMean (xs : List ℚ) : ℚ := xs.sum / xs.length

/-- PredictiveModels._get_season (services/ml_models.py): season as a
numeric code, used by the inference adapter. -/
def ml_get_season (month : ℤ) : ℤ :=
  if month = 12 ∨ month = 1 ∨ month = 2 then 0
  else if month = 3 ∨ month = 4 ∨ month = 5 then 1
  else if month = 6 ∨ month = 7 ∨ month = 8 then 2
  else 3

/-- DataProcessor._get_season (services/data_processor.py): season as a
string label, used by the training feature pipeline. -/
def dp_get_season (month : ℤ) : String :=
  if month = 12 ∨ month = 1 ∨ month = 2 then "Winter"
  else if month = 3 ∨ month = 4 ∨ month = 5 then "Spring"
  else if month = 6 ∨ month = 7 ∨ month = 8 then "Summer"
  else "Fall"

/-- The season feature value the training pipeline stores for a given month
(df.apply of DataProcessor._get_season produces a string column). -/
def trainSeasonFeature (month : ℤ) : FeatureValue := .str (dp_get_season month)

/-- The season feature value the inference adapter stores for a given month
(PredictiveModels._get_season produces an integer). -/
def inferSeasonFeature (month : ℤ) : FeatureValue := .num (ml_get_season month)

/-- PredictiveModels._get_risk_level (services/ml_models.py). -/
def get_risk_level (risk_score : ℚ) : String :=
  if risk_score ≥ 0.8 then "critical"
  else if risk_score ≥ 0.6 then "high"
  else if risk_score ≥ 0.4 then "medium"
  else "low"

/-- VisualizationService._get_risk_level (services/visualization.py); the
source duplicates the same thresholds in the heatmap path. -/
def viz_get_risk_level (risk_score : ℚ) : String :=
  if risk_score ≥ 0.8 then "critical"
  else if risk_score ≥ 0.6 then "high"
  else if risk_score ≥ 0.4 then "medium"
  else "low"

/-- Weather forecast record as consumed by the inference adapter: a Python
dict whose fields are looked up with .get and a default.  An absent field is
none. -/
structure Weather where
  temperature : Option ℚ
  precipitation : Option ℚ
  humidity : Option ℚ
deriving Repr, DecidableEq

/-- Historical-context summary as consumed by the inference adapter. -/
structure Historical where
  total_issues : Option ℚ
  avg_resolution_time : Option ℚ
  recent_trend : Option String
deriving Repr, DecidableEq

/-- One prediction dict as produced by the fusion engine
(services/ml_models.py). -/
structure PredictionItem where
  category : String
  probability : ℚ
  confidence : ℚ
  risk_score : ℚ
  reasoning : String
  recommended_actions : List String
  timeframe : String
deriving Repr, DecidableEq

/-- One risk-area dict as produced by identify_risk_areas
(services/ml_models.py). -/
structure RiskArea where
  lat : ℚ
  lng : ℚ
  risk_level : String
  risk_score : ℚ
  predicted_issues : List String
  population_density : ℚ
deriving Repr, DecidableEq

/-- PredictiveModels._get_recommended_actions. -/
def get_recommended_actions (category : String) : List String :=
  if category = "Road & Pothole Issues" then ["Inspect roads", "Schedule repairs", "Traffic management"]
  else if category = "Water Supply" then ["Check water pressure", "Monitor quality", "Emergency backup"]
  else if category = "Waste Management" then ["Schedule collection", "Monitor bins", "Public awareness"]
  else if category = "Streetlight Problems" then ["Check electrical systems", "Replace bulbs", "Schedule maintenance"]
  else if category = "Sewage & Drainage" then ["Inspect drains", "Clear blockages", "System maintenance"]
  else if category = "Public Safety" then ["Increase patrols", "Community engagement", "Emergency planning"]
  else if category = "Parks & Recreation" then ["Maintenance check", "Safety inspection", "Public notification"]
  else if category = "Traffic Management" then ["Traffic monitoring", "Signal optimization", "Route planning"]
  else ["Monitor situation", "Prepare response plan"]

/-- PredictiveModels._get_risk_actions. -/
def get_risk_actions (risk_score : ℚ) : List String :=
  if risk_score ≥ 0.8 then ["Immediate action required", "Deploy emergency resources", "Public alert"]
  else if risk_score ≥ 0.6 then ["High priority monitoring", "Prepare response team", "Preventive measures"]
  else if risk_score ≥ 0.4 then ["Regular monitoring", "Schedule inspections", "Maintenance planning"]
  else ["Routine monitoring", "Standard procedures"]

/-- Loop body of PredictiveModels._predict_categories: one prediction dict
built from a class label and its probability; risk_score is probability
times 0.8.  The numeric percent formatting inside the reasoning string is
elided. -/
def make_category_item (c : String) (prob : ℚ) : PredictionItem :=
  { category := c
    probability := prob
    confidence := prob
    risk_score := prob * 0.8
    reasoning := "Historical pattern suggests chance of " ++ c
    recommended_actions := get_recommended_actions c
    timeframe := "7_days" }

/-- PredictiveModels._predict_categories, given the per-class probabilities
returned by the classifier (predict_proba paired with classes_): keep
classes with probability above 0.1, build items, sort descending by
probability, cap at 5. -/
def predict_categories (probs : List (String × ℚ)) : List PredictionItem :=
  (((probs.filter (fun cp => cp.2 > 0.1)).map
      (fun cp => make_category_item cp.1 cp.2)).mergeSort
    (fun a b => decide (b.probability ≤ a.probability))).take 5

/-- The clamp max(0, min(1, x)) used by PredictiveModels._predict_risk_scores. -/
def clamp01 (x : ℚ) : ℚ := max 0 (min 1 x)

/-- PredictiveModels._predict_risk_scores, given the raw continuous value
returned by the regressor: clamp to the unit interval and emit a single
Overall Risk item with confidence 0.7.  The numeric formatting inside the
reasoning string is elided. -/
def predict_risk_scores (raw : ℚ) : List PredictionItem :=
  let risk := clamp01 raw
  [{ category := "Overall Risk"
     probability := risk
     confidence := 0.7
     risk_score := risk
     reasoning := "ML model predicts overall risk based on location and context"
     recommended_actions := get_risk_actions risk
     timeframe := "7_days" }]

/-- PredictiveModels._predict_time_series: the source emits one fixed
heuristic item for the requested timeframe. -/
def predict_time_series (timeframe : String) : List PredictionItem :=
  [{ category := "Time Series Prediction"
     probability := 0.3
     confidence := 0.6
     risk_score := 0.3
     reasoning := "Time series analysis suggests moderate risk over " ++ timeframe
     recommended_actions := ["Monitor trends closely", "Prepare contingency plans"]
     timeframe := timeframe }]

/-- The Water Supply fallback item of
PredictiveModels._generate_fallback_predictions. -/
def waterFallbackItem : PredictionItem :=
  { category := "Water Supply"
    probability := 0.7
    confidence := 0.8
    risk_score := 0.7
    reasoning := "Heavy rainfall predicted, high risk of water-related issues"
    recommended_actions := ["Check drainage systems", "Monitor water levels", "Prepare emergency response"]
    timeframe := "7_days" }

/-- The Road & Pothole fallback item of
PredictiveModels._generate_fallback_predictions. -/
def roadFallbackItem : PredictionItem :=
  { category := "Road & Pothole Issues"
    probability := 0.4
    confidence := 0.6
    risk_score := 0.4
    reasoning := "General risk assessment based on location and historical data"
    recommended_actions := ["Regular road inspections", "Preventive maintenance"]
    timeframe := "7_days" }

/-- PredictiveModels._generate_fallback_predictions: a Water Supply item
when a weather dict is supplied and its precipitation (default 0) exceeds
20, then always the Road & Pothole item. -/
def generate_fallback_predictions (weather : Option Weather) : List PredictionItem :=
  let water : List PredictionItem :=
    match weather with
    | some w => if w.precipitation.getD 0 > 20 then [waterFallbackItem] else []
    | none => []
  water ++ [roadFallbackItem]

/-- PredictiveModels._extract_location_features: the inference-time feature
dict, as an association list preserving Python dict insertion order.  The
distance feature is the Euclidean distance from the fixed center
(23.3441, 85.3096), kept symbolic under the sqrtVal constructor; weekday,
month and hour come from datetime.now(). -/
def extract_location_features (lat lng : ℚ) (weekday month hour : ℤ)
    (weather : Option Weather) (historical : Option Historical) :
    List (String × FeatureValue) :=
  let base : List (String × FeatureValue) :=
    [("latitude", .num lat),
     ("longitude", .num lng),
     ("distance_from_center", .sqrtVal ((lat - 23.3441) ^ 2 + (lng - 85.3096) ^ 2)),
     ("is_weekend", .bool (weekday = 5 ∨ weekday = 6)),
     ("month", .num month),
     ("hour", .num hour),
     ("season", .num (ml_get_season month))]
  let wpart : List (String × FeatureValue) :=
    match weather with
    | none => []
    | some w =>
      let precip := w.precipitation.getD 0
      let temp := w.temperature.getD 25
      [("precipitation", .num precip),
       ("temperature", .num temp),
       ("humidity", .num (w.humidity.getD 50)),
       ("heavy_rain", .num (if precip > 20 then 1 else 0)),
       ("extreme_temp", .num (if temp > 35 ∨ temp < 5 then 1 else 0))]
  let hpart : List (String × FeatureValue) :=
    match historical with
    | none => []
    | some h =>
      [("total_issues", .num (h.total_issues.getD 0)),
       ("avg_resolution_time", .num (h.avg_resolution_time.getD 3)),
       ("trend_increasing", .num (if h.recent_trend = some "increasing" then 1 else 0))]
  base ++ wpart ++ hpart

/-- The Model Registry (PredictiveModels.models): each trained model is
independently present or absent.  The trained classifier and regressor are
fitted sklearn objects; their evaluation on a feature vector is modelled as
a function.  The time-series branch of predict_issues only tests membership
of the key and then calls the fixed heuristic, so presence is a flag. -/
structure ModelRegistry where
  issue_classifier : Option (List (String × FeatureValue) → List PredictionItem)
  risk_regressor : Option (List (String × FeatureValue) → List PredictionItem)
  time_series : Bool

/-- The registry at process start: no model trained. -/
def emptyRegistry : ModelRegistry :=
  { issue_classifier := none, risk_regressor := none, time_series := false }

/-- PredictiveModels.predict_issues: run each available model against the
adapted feature vector, and fall back to the deterministic predictions when
no model produced output. -/
def predict_issues (reg : ModelRegistry) (lat lng : ℚ) (weekday month hour : ℤ)
    (weather : Option Weather) (historical : Option Historical)
    (timeframe : String) : List PredictionItem :=
  let features := extract_location_features lat lng weekday month hour weather historical
  let p1 := match reg.issue_classifier with
    | some f => f features
    | none => []
  let p2 := match reg.risk_regressor with
    | some f => f features
    | none => []
  let p3 := if reg.time_series ∧ historical.isSome then predict_time_series timeframe else []
  let predictions := p1 ++ p2 ++ p3
  if predictions.isEmpty then generate_fallback_predictions weather else predictions

/-- PredictiveModels.calculate_overall_risk. -/
def calculate_overall_risk (predictions : List PredictionItem)
    (risk_areas : List RiskArea) : ℚ :=
  if predictions.isEmpty ∧ risk_areas.isEmpty then 0
  else
    let prediction_risk : ℚ :=
      if predictions.isEmpty then 0
      else (listMean (predictions.map (·.probability))
            + listMean (predictions.map (·.risk_score))) / 2
    let area_risk : ℚ :=
      if risk_areas.isEmpty then 0
      else listMean (risk_areas.map (·.risk_score))
    let overall : ℚ :=
      if 0 < prediction_risk ∧ 0 < area_risk then (prediction_risk + area_risk) / 2
      else max prediction_risk area_risk
    min 1 overall

/-- The overall-risk formula exactly as claim C2 states it: P is the mean
over PredictionItems of the mean of probability and risk_score, A the mean
over RiskAreaPoints of risk_score; (P+A)/2 when both are positive, the
positive one when exactly one is, 0 when neither is. -/
def claimOverallRisk (predictions : List PredictionItem)
    (risk_areas : List RiskArea) : ℚ :=
  if 0 < listMean (predictions.map (fun p => (p.probability + p.risk_score) / 2))
      ∧ 0 < listMean (risk_areas.map (·.risk_score)) then
    (listMean (predictions.map (fun p => (p.probability + p.risk_score) / 2))
      + listMean (risk_areas.map (·.risk_score))) / 2
  else if 0 < listMean (predictions.map (fun p => (p.probability + p.risk_score) / 2)) then
    listMean (predictions.map (fun p => (p.probability + p.risk_score) / 2))
  else if 0 < listMean (risk_areas.map (·.risk_score)) then
    listMean (risk_areas.map (·.risk_score))
  else 0

/-- PredictiveModels._calculate_location_risk: min(1, min(1, distance*0.5)
plus noise).  The source computes distance as the Euclidean distance from
the fixed center (np.sqrt, a nonnegative real) and noise as a draw of
np.random.uniform(0, 0.3); both enter here as parameters. -/
def calculate_location_risk (dist noise : ℚ) : ℚ :=
  let base_risk := min 1 (dist * 0.5)
  min 1 (base_risk + noise)

/-- PredictiveModels._generate_location_grid: a 5 by 5 grid of points, step
half an offset, centered on the given location.  The source computes
lat_offset as radius_km/111 and lng_offset as
radius_km/(111*cos(radians(lat))); the offsets enter here as parameters
(the cosine is irrational). -/
def generate_location_grid (center_lat center_lng latOff lngOff : ℚ) :
    List (ℚ × ℚ) :=
  (List.range 5).flatMap (fun (i : ℕ) =>
    (List.range 5).map (fun (j : ℕ) =>
      (center_lat + ((i : ℚ) - 2) * latOff / 2,
       center_lng + ((j : ℚ) - 2) * lngOff / 2)))

/-- PredictiveModels.identify_risk_areas: score every grid location and keep
those with risk above 0.6, attaching a risk level, predicted issues and a
population density.  The per-location Euclidean distance, uniform noise
draw, random issue list and random density draw enter as functions of the
location. -/
def identify_risk_areas (center_lat center_lng latOff lngOff : ℚ)
    (distOf noiseOf : ℚ → ℚ → ℚ) (issuesOf : ℚ → ℚ → List String)
    (densityOf : ℚ → ℚ → ℚ) : List RiskArea :=
  (generate_location_grid center_lat center_lng latOff lngOff).filterMap
    (fun loc =>
      let risk := calculate_location_risk (distOf loc.1 loc.2) (noiseOf loc.1 loc.2)
      if risk > 0.6 then
        some { lat := loc.1
               lng := loc.2
               risk_level := get_risk_level risk
               risk_score := risk
               predicted_issues := issuesOf loc.1 loc.2
               population_density := densityOf loc.1 loc.2 }
      else none)

/-- VisualizationService._get_infrastructure_risk: an urban factor of 1.0
within 0.1 degree of the fixed center and 0.6 otherwise, times an age
factor drawn from np.random.uniform(0.3, 0.9), which enters as a
parameter. -/
def get_infrastructure_risk (lat lng age_factor : ℚ) : ℚ :=
  let urban_factor : ℚ :=
    if |lat - 23.3441| < 0.1 ∧ |lng - 85.3096| < 0.1 then 1 else 0.6
  urban_factor * age_factor

/-- VisualizationService._calculate_grid_risk: weighted sum of a
distance-decay factor, a random factor drawn from np.random.uniform(0.2,
0.8) and the simulated infrastructure risk, clamped above at 1.  The
Euclidean distance from the center and the random factor enter as
parameters. -/
def calculate_grid_risk (lat lng dist random_factor age_factor : ℚ) : ℚ :=
  let distance_factor := max 0 (1 - dist * 10)
  let infrastructure_risk := get_infrastructure_risk lat lng age_factor
  min 1 (distance_factor * 0.3 + random_factor * 0.4 + infrastructure_risk * 0.3)

/-- np.linspace(a, b, n): n evenly spaced points from a to b inclusive. -/
def linspace (a b : ℚ) (n : ℕ) : List ℚ :=
  if n = 0 then []
  else if n = 1 then [a]
  else (List.range n).map (fun (i : ℕ) => a + (i : ℚ) * (b - a) / ((n : ℚ) - 1))

/-- The grid positions enumerated by
VisualizationService.generate_risk_heatmap: the product of a linspace of
resolution points across the latitude bounds and one across the longitude
bounds, built center minus offset to center plus offset. -/
def heatmap_points (center_lat center_lng latOff lngOff : ℚ) (resolution : ℕ) :
    List (ℚ × ℚ) :=
  (linspace (center_lat - latOff) (center_lat + latOff) resolution).flatMap
    (fun la =>
      (linspace (center_lng - lngOff) (center_lng + lngOff) resolution).map
        (fun lo => (la, lo)))

/-- One row of the training table as seen by
PredictiveModels._prepare_time_series_data: its location key, its date (as
an ordinal) and its risk-score label; remaining numeric feature columns are
carried opaquely. -/
structure TsRow where
  location_key : String
  date : ℤ
  risk_score : ℚ
  features : List ℚ
deriving Repr, DecidableEq

/-- Insertion step of the date sort applied to each location group. -/
def insertByDate (r : TsRow) : List TsRow → List TsRow
  | [] => [r]
  | x :: xs => if r.date ≤ x.date then r :: x :: xs else x :: insertByDate r xs

/-- group.sort_values of the date column. -/
def sortByDate : List TsRow → List TsRow
  | [] => []
  | x :: xs => insertByDate x (sortByDate xs)

/-- Inner loop of PredictiveModels._prepare_time_series_data for one
location group, already sorted by date: groups shorter than
sequence_length + 1 = 8 are skipped; otherwise each window of 7 rows is
paired with the following row's risk_score as target. -/
def ts_sequences_of_group (group : List TsRow) : List (List TsRow × ℚ) :=
  if group.length < 7 + 1 then []
  else
    (List.range (group.length - 7)).filterMap (fun i =>
      ((group.drop (i + 7)).head?).map
        (fun tgt => ((group.drop i).take 7, tgt.risk_score)))

/-- PredictiveModels._prepare_time_series_data over the training table
grouped by location key. -/
def prepare_time_series_data (groups : List (String × List TsRow)) :
    List (List TsRow × ℚ) :=
  groups.flatMap (fun g => ts_sequences_of_group (sortByDate g.2))

/-- Outcome of one training step as recorded by the orchestrator. -/
inductive TrainOutcome where
  | trained
  | insufficientData
  | failed
deriving Repr, DecidableEq

/-- PredictiveModels.train_time_series_model over the set of model names
stored in PredictiveModels.models: when no sequences exist the source logs
a warning and returns None without touching self.models; otherwise it fits
the LSTM (an external call, modelled as succeeding) and stores the entry. -/
def train_time_series_model (registry : List String)
    (groups : List (String × List TsRow)) : List String × TrainOutcome :=
  let seqs := prepare_time_series_data groups
  if seqs.isEmpty then (registry, TrainOutcome.insufficientData)
  else (registry ++ ["time_series"], TrainOutcome.trained)

/-- The training orchestration of main.train_models_task over
PredictiveModels.models: the classifier, regressor and anomaly-detector
fits are external sklearn calls on the same training table, modelled as
succeeding and storing their entries; the time-series step is the embedded
function above.  Returns the final registry key list and the four per-model
outcomes in training order. -/
def train_all_models (groups : List (String × List TsRow)) :
    List String × List TrainOutcome :=
  let r1 : List String := [] ++ ["issue_classifier"]
  let r2 := r1 ++ ["risk_regressor"]
  let tsStep := train_time_series_model r2 groups
  let r4 := tsStep.1 ++ ["anomaly_detector"]
  (r4, [TrainOutcome.trained, TrainOutcome.trained, tsStep.2, TrainOutcome.trained])

/-- The fixed category enumeration (DataProcessor.categories). -/
def categories : List String :=
  ["Road & Pothole Issues", "Streetlight Problems", "Waste Management",
   "Water Supply", "Sewage & Drainage", "Public Safety",
   "Parks & Recreation", "Traffic Management", "Other"]

/-- Column order of the synthetic training table built by
DataProcessor._generate_sample_data before feature engineering. -/
def sampleDataColumns : List String :=
  ["date", "created_at", "latitude", "longitude", "category", "priority",
   "precipitation", "temperature", "humidity", "population_density",
   "infrastructure_age", "resolution_time"]

/-- The one-hot columns pd.get_dummies appends for the category column,
prefix cat, in sorted label order. -/
def catDummyColumns : List String :=
  ["cat_Other", "cat_Parks & Recreation", "cat_Public Safety",
   "cat_Road & Pothole Issues", "cat_Sewage & Drainage",
   "cat_Streetlight Problems", "cat_Traffic Management",
   "cat_Waste Management", "cat_Water Supply"]

/-- Column-level effect of DataProcessor._engineer_features: each block
appends its derived columns when its precondition columns are present;
get_dummies drops the category column and appends the one-hot columns; the
risk_score column is always appended last. -/
def engineer_feature_columns (cols : List String) : List String :=
  let c1 := if cols.contains "date"
    then cols ++ ["year", "month", "day_of_year", "day_of_week", "is_weekend", "season"]
    else cols
  let c2 := if c1.contains "latitude" && c1.contains "longitude"
    then c1 ++ ["location_key", "distance_from_center"]
    else c1
  let c3 := if c2.contains "precipitation"
    then c2 ++ ["heavy_rain", "rain_3day_avg"]
    else c2
  let c4 := if c3.contains "temperature" then c3 ++ ["extreme_temp"] else c3
  let c5 := if c4.contains "category"
    then (c4.filter (fun c => c ≠ "category")) ++ catDummyColumns
    else c4
  let c6 := if c5.contains "created_at" then c5 ++ ["hour", "time_of_day"] else c5
  c6 ++ ["risk_score"]

/-- The engineered training-table columns for the synthetic dataset. -/
def trainingFeatureColumns : List String :=
  engineer_feature_columns sampleDataColumns

/-- Columns PredictiveModels._prepare_classification_data excludes from the
classifier's feature matrix. -/
def classifierExcluded : List String :=
  ["category", "date", "created_at", "location_key", "risk_score"]

/-- The classifier's training feature schema: the engineered columns minus
the excluded ones, in table order (self.feature_columns). -/
def classifier_feature_columns : List String :=
  trainingFeatureColumns.filter (fun c => !(classifierExcluded.contains c))

/-- Key order of the inference adapter's feature dict, for each combination
of supplied optional contexts (see extract_location_features). -/
def inference_feature_keys (hasWeather hasHistorical : Bool) : List String :=
  ["latitude", "longitude", "distance_from_center", "is_weekend", "month",
   "hour", "season"]
  ++ (if hasWeather
      then ["precipitation", "temperature", "humidity", "heavy_rain", "extreme_temp"]
      else [])
  ++ (if hasHistorical
      then ["total_issues", "avg_resolution_time", "trend_increasing"]
      else [])

/-- Possible outcomes of the category-prediction step, distinguishing a
surfaced schema-mismatch rejection from an ordinary item list. -/
inductive PredictOutcome where
  | ok : List PredictionItem → PredictOutcome
  | schemaMismatch : PredictOutcome
deriving Repr, DecidableEq

/-- What PredictiveModels._predict_categories returns when the inference
vector does not match the trained schema: the StandardScaler transform
raises on the length mismatch inside the try-block, the except-branch logs
and returns the empty list.  No schema-mismatch error is surfaced. -/
def predict_categories_on_mismatch : PredictOutcome := .ok []

/-- A registry holding a trained classifier whose invocation hits the
schema mismatch: the except-branch of _predict_categories yields the empty
list, so the classifier function is the constant empty list. -/
def mismatchRegistry : ModelRegistry :=
  { issue_classifier := some (fun _ => [])
    risk_regressor := none
    time_series := false }

/-- Concrete prediction item with probability and risk score one half, used
to evaluate the fusion formulas on explicit inputs. -/
def halfItem : PredictionItem :=
  { category := "x"
    probability := 0.5
    confidence := 0.5
    risk_score := 0.5
    reasoning := ""
    recommended_actions := []
    timeframe := "7_days" }

/-- Concrete risk area with risk score 0.3, used to evaluate the fusion
formulas on explicit inputs. -/
def area03 : RiskArea :=
  { lat := 0
    lng := 0
    risk_level := "low"
    risk_score := 0.3
    predicted_issues := []
    population_density := 0 }

/-- Concrete risk area produced by the spatial scan at grid step (1, 1)
around center (0, 0) with unit offsets, constant distance 2 and zero
noise. -/
def criticalArea : RiskArea :=
  { lat := -1 / 2
    lng := -1 / 2
    risk_level := "critical"
    risk_score := 1
    predicted_issues := []
    population_density := 0 }

/-- A weather dict supplied with none of its fields present. -/
def emptyWeather : Weather :=
  { temperature := none, precipitation := none, humidity := none }

/-- A historical-context dict supplied with none of its fields present. -/
def emptyHistorical : Historical :=
  { total_issues := none, avg_resolution_time := none, recent_trend := none }

/-- Claim C4: for every risk score the derived risk level follows the exact
thresholds (below 0.4 low, 0.4 to below 0.6 medium, 0.6 to below 0.8 high,
0.8 and above critical), with 0.6 mapping to high, 0.599 to medium, 0.8 to
critical and 0.79999 to high, in both the risk-area path and the heatmap
path (the two copies agree on every input). -/
theorem C4_risk_level_thresholds :
    (∀ r : ℚ, viz_get_risk_level r = get_risk_level r)
    ∧ (∀ r : ℚ,
        (get_risk_level r = "low" ↔ r < 0.4)
        ∧ (get_risk_level r = "medium" ↔ 0.4 ≤ r ∧ r < 0.6)
        ∧ (get_risk_level r = "high" ↔ 0.6 ≤ r ∧ r < 0.8)
        ∧ (get_risk_level r = "critical" ↔ 0.8 ≤ r))
    ∧ get_risk_level 0.6 = "high" ∧ get_risk_level 0.599 = "medium"
    ∧ get_risk_level 0.8 = "critical" ∧ get_risk_level 0.79999 = "high"
    ∧ viz_get_risk_level 0.6 = "high" ∧ viz_get_risk_level 0.599 = "medium"
    ∧ viz_get_risk_level 0.8 = "critical" ∧ viz_get_risk_level 0.79999 = "high" := by
  refine ⟨fun r => rfl, fun r => ?_, by norm_num [get_risk_level],
    by norm_num [get_risk_level], by norm_num [get_risk_level],
    by norm_num [get_risk_level], by norm_num [viz_get_risk_level],
    by norm_num [viz_get_risk_level], by norm_num [viz_get_risk_level],
    by norm_num [viz_get_risk_level]⟩
  unfold get_risk_level
  split_ifs with h1 h2 h3
  · exact ⟨iff_of_false (by decide) (by intro hr; linarith),
      iff_of_false (by decide) (by intro hr; linarith [hr.2]),
      iff_of_false (by decide) (by intro hr; linarith [hr.2]),
      iff_of_true rfl h1⟩
  · push_neg at h1
    exact ⟨iff_of_false (by decide) (by intro hr; linarith),
      iff_of_false (by decide) (by intro hr; linarith [hr.2]),
      iff_of_true rfl ⟨h2, h1⟩,
      iff_of_false (by decide) (by intro hr; linarith)⟩
  · push_neg at h1 h2
    exact ⟨iff_of_false (by decide) (by intro hr; linarith),
      iff_of_true rfl ⟨h3, h2⟩,
      iff_of_false (by decide) (by intro hr; linarith [hr.1]),
      iff_of_false (by decide) (by intro hr; linarith)⟩
  · push_neg at h1 h2 h3
    exact ⟨iff_of_true rfl h3,
      iff_of_false (by decide) (by intro hr; linarith [hr.1]),
      iff_of_false (by decide) (by intro hr; linarith [hr.1]),
      iff_of_false (by decide) (by intro hr; linarith)⟩

/-- Claim C5 evidence: the season feature derived at inference never has the
same value as the season feature derived in training — training stores a
string label, inference stores a numeric code; in particular for month 12
training stores the string Winter while inference stores the number 0. -/
theorem C5_season_train_serve_skew :
    (∀ month : ℤ, trainSeasonFeature month ≠ inferSeasonFeature month)
    ∧ trainSeasonFeature 12 = FeatureValue.str "Winter"
    ∧ inferSeasonFeature 12 = FeatureValue.num 0 := by
  refine ⟨fun month h => ?_, by decide, by decide⟩
  simp [trainSeasonFeature, inferSeasonFeature] at h

theorem listMean_nonneg {xs : List ℚ} (h : ∀ x ∈ xs, 0 ≤ x) : 0 ≤ listMean xs := by
  unfold listMean
  apply div_nonneg (List.sum_nonneg h)
  positivity

theorem listMean_le_one {xs : List ℚ} (h : ∀ x ∈ xs, x ≤ 1) : listMean xs ≤ 1 := by
  unfold listMean
  rcases Nat.eq_zero_or_pos xs.length with h0 | hpos
  · rw [h0]
    norm_num
  · rw [div_le_one (by exact_mod_cast hpos)]
    calc xs.sum ≤ xs.length • (1 : ℚ) := List.sum_le_card_nsmul xs 1 h
    _ = xs.length := by simp

theorem sum_map_half_add (ps : List PredictionItem) :
    (ps.map (fun p => (p.probability + p.risk_score) / 2)).sum
      = ((ps.map (·.probability)).sum + (ps.map (·.risk_score)).sum) / 2 := by
  induction ps with
  | nil => simp
  | cons p ps ih =>
    simp only [List.map_cons, List.sum_cons, ih]
    ring

theorem pred_contrib_eq (ps : List PredictionItem) :
    (if ps.isEmpty then (0 : ℚ)
     else (listMean (ps.map (·.probability)) + listMean (ps.map (·.risk_score))) / 2)
      = listMean (ps.map (fun p => (p.probability + p.risk_score) / 2)) := by
  by_cases h : ps = []
  · subst h
    simp [listMean]
  · rw [if_neg (by simpa [List.isEmpty_iff] using h)]
    unfold listMean
    rw [sum_map_half_add]
    simp only [List.length_map]
    rw [div_add_div_same, div_div, div_div, mul_comm]

theorem area_contrib_eq (ar : List RiskArea) :
    (if ar.isEmpty then (0 : ℚ) else listMean (ar.map (·.risk_score)))
      = listMean (ar.map (·.risk_score)) := by
  by_cases h : ar = []
  · subst h
    simp [listMean]
  · rw [if_neg (by simpa [List.isEmpty_iff] using h)]

theorem item_half_bounds {ps : List PredictionItem}
    (hp : ∀ p ∈ ps, 0 ≤ p.probability ∧ p.probability ≤ 1
      ∧ 0 ≤ p.risk_score ∧ p.risk_score ≤ 1) :
    0 ≤ listMean (ps.map (fun p => (p.probability + p.risk_score) / 2))
    ∧ listMean (ps.map (fun p => (p.probability + p.risk_score) / 2)) ≤ 1 := by
  constructor
  · apply listMean_nonneg
    intro x hx
    obtain ⟨p, hpm, rfl⟩ := List.mem_map.mp hx
    obtain ⟨h1, _, h3, _⟩ := hp p hpm
    linarith
  · apply listMean_le_one
    intro x hx
    obtain ⟨p, hpm, rfl⟩ := List.mem_map.mp hx
    obtain ⟨_, h2, _, h4⟩ := hp p hpm
    linarith

theorem area_mean_bounds {ar : List RiskArea}
    (ha : ∀ a ∈ ar, 0 ≤ a.risk_score ∧ a.risk_score ≤ 1) :
    0 ≤ listMean (ar.map (·.risk_score))
    ∧ listMean (ar.map (·.risk_score)) ≤ 1 := by
  constructor
  · apply listMean_nonneg
    intro x hx
    obtain ⟨a, ham, rfl⟩ := List.mem_map.mp hx
    exact (ha a ham).1
  · apply listMean_le_one
    intro x hx
    obtain ⟨a, ham, rfl⟩ := List.mem_map.mp hx
    exact (ha a ham).2

theorem claimOverallRisk_bounds {ps : List PredictionItem} {ar : List RiskArea}
    (hp : ∀ p ∈ ps, 0 ≤ p.probability ∧ p.probability ≤ 1
      ∧ 0 ≤ p.risk_score ∧ p.risk_score ≤ 1)
    (ha : ∀ a ∈ ar, 0 ≤ a.risk_score ∧ a.risk_score ≤ 1) :
    0 ≤ claimOverallRisk ps ar ∧ claimOverallRisk ps ar ≤ 1 := by
  obtain ⟨hP0, hP1⟩ := item_half_bounds hp
  obtain ⟨hA0, hA1⟩ := area_mean_bounds ha
  unfold claimOverallRisk
  split_ifs with h1 h2 h3
  · exact ⟨by linarith [h1.1, h1.2], by linarith⟩
  · exact ⟨le_of_lt h2, hP1⟩
  · exact ⟨le_of_lt h3, hA1⟩
  · norm_num

theorem overallRisk_eq_claim {ps : List PredictionItem} {ar : List RiskArea}
    (hp : ∀ p ∈ ps, 0 ≤ p.probability ∧ p.probability ≤ 1
      ∧ 0 ≤ p.risk_score ∧ p.risk_score ≤ 1)
    (ha : ∀ a ∈ ar, 0 ≤ a.risk_score ∧ a.risk_score ≤ 1) :
    calculate_overall_risk ps ar = claimOverallRisk ps ar := by
  obtain ⟨hP0, hP1⟩ := item_half_bounds hp
  obtain ⟨hA0, hA1⟩ := area_mean_bounds ha
  unfold calculate_overall_risk
  by_cases hboth : ps.isEmpty ∧ ar.isEmpty
  · rw [if_pos hboth]
    obtain ⟨h1, h2⟩ := hboth
    rw [List.isEmpty_iff] at h1 h2
    subst h1; subst h2
    simp [claimOverallRisk, listMean]
  · rw [if_neg hboth]
    simp only [pred_contrib_eq ps, area_contrib_eq ar]
    set P := listMean (ps.map (fun p => (p.probability + p.risk_score) / 2)) with hPdef
    set A := listMean (ar.map (·.risk_score)) with hAdef
    unfold claimOverallRisk
    rw [← hPdef, ← hAdef]
    split_ifs with h1 h2 h3
    · exact min_eq_right (by linarith [h1.1, h1.2])
    · rw [max_eq_left]
      · exact min_eq_right hP1
      · push_neg at h1
        have : A = 0 := le_antisymm (h1 h2) hA0
        linarith
    · rw [max_eq_right]
      · exact min_eq_right hA1
      · push_neg at h2
        linarith
    · push_neg at h2 h3
      have hP : P = 0 := le_antisymm h2 hP0
      have hA : A = 0 := le_antisymm h3 hA0
      rw [hP, hA]
      norm_num

/-- Claim C2: the overall risk score equals the claimed synthesis formula —
with P the mean over PredictionItems of the mean of probability and
risk_score and A the mean over RiskAreaPoints of risk_score, the result is
(P+A)/2 when both are positive, the positive one when exactly one is, 0
when neither is — it stays in the unit interval, and with no risk areas it
equals the prediction-only figure P exactly. -/
theorem C2_overall_risk_formula (ps : List PredictionItem) (ar : List RiskArea)
    (hp : ∀ p ∈ ps, 0 ≤ p.probability ∧ p.probability ≤ 1
      ∧ 0 ≤ p.risk_score ∧ p.risk_score ≤ 1)
    (ha : ∀ a ∈ ar, 0 ≤ a.risk_score ∧ a.risk_score ≤ 1) :
    calculate_overall_risk ps ar = claimOverallRisk ps ar
    ∧ 0 ≤ calculate_overall_risk ps ar ∧ calculate_overall_risk ps ar ≤ 1
    ∧ (ar = [] → calculate_overall_risk ps ar
        = listMean (ps.map (fun p => (p.probability + p.risk_score) / 2))) := by
  have heq := overallRisk_eq_claim hp ha
  obtain ⟨hb0, hb1⟩ := claimOverallRisk_bounds hp ha
  refine ⟨heq, heq ▸ hb0, heq ▸ hb1, fun har => ?_⟩
  subst har
  rw [heq]
  obtain ⟨hP0, _⟩ := item_half_bounds hp
  unfold claimOverallRisk
  have hA : listMean (([] : List RiskArea).map (·.risk_score)) = 0 := by
    simp [listMean]
  rw [hA]
  split_ifs with h1 h2 h3
  · exact absurd h1.2 (by norm_num)
  · rfl
  · exact absurd h3 (by norm_num)
  · push_neg at h2
    linarith

/-- Witness for C2: one prediction item with probability and risk 0.5 and
one risk area with risk 0.3 give overall 0.4 exactly; with no risk areas
the same prediction list gives 0.5 exactly. -/
theorem C2_overall_risk_formula_witness :
    calculate_overall_risk [halfItem] [area03] = 0.4
    ∧ calculate_overall_risk [halfItem] [] = 0.5 := by
  have hhp : ∀ p ∈ [halfItem],
      0 ≤ p.probability ∧ p.probability ≤ 1
        ∧ 0 ≤ p.risk_score ∧ p.risk_score ≤ 1 := by
    intro p hp
    rw [List.mem_singleton] at hp
    subst hp
    norm_num [halfItem]
  have hha : ∀ a ∈ [area03], 0 ≤ a.risk_score ∧ a.risk_score ≤ 1 := by
    intro a hp
    rw [List.mem_singleton] at hp
    subst hp
    norm_num [area03]
  have h1 := C2_overall_risk_formula [halfItem] [area03] hhp hha
  have h2 := C2_overall_risk_formula [halfItem] [] hhp
    (by intro a ha; exact absurd ha (List.not_mem_nil a))
  refine ⟨?_, ?_⟩
  · rw [h1.1]
    norm_num [claimOverallRisk, listMean, halfItem, area03]
  · rw [h2.2.2.2 rfl]
    norm_num [listMean, halfItem]

/-- Claim C3: with an empty model registry, prediction fusion returns the
deterministic fallback — with no weather context exactly the Road & Pothole
item with probability 0.4, and for any supplied weather context whose
precipitation exceeds 20 (in particular 25) additionally the Water Supply
item with probability 0.7. -/
theorem C3_empty_registry_fallback :
    roadFallbackItem.category = "Road & Pothole Issues"
    ∧ roadFallbackItem.probability = 0.4
    ∧ waterFallbackItem.category = "Water Supply"
    ∧ waterFallbackItem.probability = 0.7
    ∧ (∀ (lat lng : ℚ) (weekday month hour : ℤ) (historical : Option Historical)
        (timeframe : String),
        predict_issues emptyRegistry lat lng weekday month hour none historical timeframe
          = [roadFallbackItem])
    ∧ (∀ (lat lng : ℚ) (weekday month hour : ℤ) (historical : Option Historical)
        (timeframe : String) (w : Weather) (p : ℚ),
        w.precipitation = some p → 20 < p →
        predict_issues emptyRegistry lat lng weekday month hour (some w) historical timeframe
          = [waterFallbackItem, roadFallbackItem]
        ∧ waterFallbackItem ∈
            predict_issues emptyRegistry lat lng weekday month hour (some w) historical
              timeframe) := by
  refine ⟨rfl, rfl, rfl, rfl, ?_, ?_⟩
  · intro lat lng weekday month hour historical timeframe
    simp [predict_issues, emptyRegistry, generate_fallback_predictions]
  · intro lat lng weekday month hour historical timeframe w p hw hp
    have hlist : predict_issues emptyRegistry lat lng weekday month hour (some w)
        historical timeframe = [waterFallbackItem, roadFallbackItem] := by
      simp [predict_issues, emptyRegistry, generate_fallback_predictions, hw, hp]
    exact ⟨hlist, by rw [hlist]; exact List.mem_cons_self _ _⟩

/-- Witness for C3: at a concrete location with precipitation 25 the empty
registry yields the Water Supply item followed by the Road & Pothole item,
and with no weather context exactly the Road & Pothole item. -/
theorem C3_empty_registry_fallback_witness :
    predict_issues emptyRegistry 23.3441 85.3096 2 6 12
        (some { temperature := none, precipitation := some 25, humidity := none })
        none "7_days"
      = [waterFallbackItem, roadFallbackItem]
    ∧ predict_issues emptyRegistry 23.3441 85.3096 2 6 12 none none "7_days"
      = [roadFallbackItem] := by
  constructor
  · exact (C3_empty_registry_fallback.2.2.2.2.2 23.3441 85.3096 2 6 12 none "7_days"
      { temperature := none, precipitation := some 25, humidity := none } 25 rfl
      (by norm_num)).1
  · exact C3_empty_registry_fallback.2.2.2.2.1 23.3441 85.3096 2 6 12 none "7_days"

/-- Claim C1 evidence: the training-time feature schema and the
inference-time feature keys are not identical — the training schema
contains the year column while the inference dict never does, for any
combination of optional contexts — and on the resulting mismatch the
category-prediction step returns the empty item list from its
exception handler instead of surfacing a schema-mismatch rejection, after
which predict_issues silently falls through to the fallback predictions. -/
theorem C1_schema_mismatch_swallowed :
    ("year" ∈ classifier_feature_columns
      ∧ ∀ hw hh : Bool, "year" ∉ inference_feature_keys hw hh)
    ∧ (∀ hw hh : Bool, classifier_feature_columns ≠ inference_feature_keys hw hh)
    ∧ predict_categories_on_mismatch = PredictOutcome.ok []
    ∧ predict_categories_on_mismatch ≠ PredictOutcome.schemaMismatch
    ∧ (∀ (lat lng : ℚ) (weekday month hour : ℤ) (historical : Option Historical)
        (timeframe : String),
        predict_issues mismatchRegistry lat lng weekday month hour none historical timeframe
          = generate_fallback_predictions none) := by
  refine ⟨⟨by decide, by decide⟩, by decide, rfl, by decide, ?_⟩
  intro lat lng weekday month hour historical timeframe
  simp [predict_issues, mismatchRegistry]

/-- Counterexample for C6 as stated: when the optional weather and
historical contexts are absent entirely, the adapter's feature vector does
not contain the defaulted features at all — no temperature, humidity,
precipitation or avg_resolution_time key is present. -/
theorem C6_defaults_counterexample :
    "temperature" ∉ (extract_location_features 23.3441 85.3096 2 6 12 none none).map Prod.fst
    ∧ "humidity" ∉ (extract_location_features 23.3441 85.3096 2 6 12 none none).map Prod.fst
    ∧ "precipitation"
        ∉ (extract_location_features 23.3441 85.3096 2 6 12 none none).map Prod.fst
    ∧ "avg_resolution_time"
        ∉ (extract_location_features 23.3441 85.3096 2 6 12 none none).map Prod.fst := by
  refine ⟨?_, ?_, ?_, ?_⟩ <;> simp [extract_location_features]

/-- Claim C6 amended: the documented defaults — temperature 25, humidity
50, precipitation 0, average resolution time 3 — are applied per field when
the optional context object is supplied but the field is missing; when a
context object is absent entirely, its feature block is omitted from the
vector rather than defaulted. -/
theorem C6_defaults_amended (lat lng : ℚ) (weekday month hour : ℤ)
    (w : Weather) (h : Historical)
    (hwt : w.temperature = none) (hwh : w.humidity = none)
    (hwp : w.precipitation = none) (hha : h.avg_resolution_time = none) :
    ("temperature", FeatureValue.num 25)
        ∈ extract_location_features lat lng weekday month hour (some w) (some h)
    ∧ ("humidity", FeatureValue.num 50)
        ∈ extract_location_features lat lng weekday month hour (some w) (some h)
    ∧ ("precipitation", FeatureValue.num 0)
        ∈ extract_location_features lat lng weekday month hour (some w) (some h)
    ∧ ("avg_resolution_time", FeatureValue.num 3)
        ∈ extract_location_features lat lng weekday month hour (some w) (some h)
    ∧ (∀ hist : Option Historical,
        "temperature"
          ∉ (extract_location_features lat lng weekday month hour none hist).map Prod.fst)
    ∧ (∀ wopt : Option Weather,
        "avg_resolution_time"
          ∉ (extract_location_features lat lng weekday month hour wopt none).map Prod.fst) := by
  refine ⟨?_, ?_, ?_, ?_, ?_, ?_⟩
  · simp [extract_location_features, hwt]
  · simp [extract_location_features, hwh]
  · simp [extract_location_features, hwp]
  · simp [extract_location_features, hha]
  · intro hist
    cases hist <;> simp [extract_location_features]
  · intro wopt
    cases wopt <;> simp [extract_location_features]

/-- Witness for the amended C6: with both context objects supplied but all
their fields missing, the concrete feature vector contains the four
defaulted features. -/
theorem C6_defaults_amended_witness :
    ("temperature", FeatureValue.num 25)
        ∈ extract_location_features 23.3441 85.3096 2 6 12 (some emptyWeather)
            (some emptyHistorical)
    ∧ ("humidity", FeatureValue.num 50)
        ∈ extract_location_features 23.3441 85.3096 2 6 12 (some emptyWeather)
            (some emptyHistorical)
    ∧ ("precipitation", FeatureValue.num 0)
        ∈ extract_location_features 23.3441 85.3096 2 6 12 (some emptyWeather)
            (some emptyHistorical)
    ∧ ("avg_resolution_time", FeatureValue.num 3)
        ∈ extract_location_features 23.3441 85.3096 2 6 12 (some emptyWeather)
            (some emptyHistorical) := by
  have h := C6_defaults_amended 23.3441 85.3096 2 6 12 emptyWeather emptyHistorical
    rfl rfl rfl rfl
  exact ⟨h.1, h.2.1, h.2.2.1, h.2.2.2.1⟩

theorem insertByDate_length (r : TsRow) (l : List TsRow) :
    (insertByDate r l).length = l.length + 1 := by
  induction l with
  | nil => rfl
  | cons x xs ih =>
    unfold insertByDate
    split_ifs <;> simp [ih]

theorem sortByDate_length (l : List TsRow) : (sortByDate l).length = l.length := by
  induction l with
  | nil => rfl
  | cons x xs ih =>
    unfold sortByDate
    rw [insertByDate_length, ih]
    rfl

theorem ts_sequences_short (group : List TsRow) (h : group.length < 8) :
    ts_sequences_of_group group = [] := by
  unfold ts_sequences_of_group
  rw [if_pos h]

/-- Claim C7: when no location group reaches window length 8, the prepared
sequence set is empty, time-series training returns the explicit
insufficient-data outcome leaving the registry untouched (no exception, no
placeholder entry), and the orchestrator still stores the other three
variants while the registry omits the time_series entry. -/
theorem C7_sequence_insufficient_data (groups : List (String × List TsRow))
    (h : ∀ g ∈ groups, (g.2).length < 8) :
    prepare_time_series_data groups = []
    ∧ (∀ reg : List String,
        train_time_series_model reg groups = (reg, TrainOutcome.insufficientData))
    ∧ (train_all_models groups).1 = ["issue_classifier", "risk_regressor", "anomaly_detector"]
    ∧ "time_series" ∉ (train_all_models groups).1
    ∧ (train_all_models groups).2
        = [TrainOutcome.trained, TrainOutcome.trained, TrainOutcome.insufficientData,
           TrainOutcome.trained] := by
  have hprep : prepare_time_series_data groups = [] := by
    unfold prepare_time_series_data
    rw [List.flatMap_eq_nil_iff]
    intro g hg
    exact ts_sequences_short _ (by rw [sortByDate_length]; exact h g hg)
  have htrain : ∀ reg : List String,
      train_time_series_model reg groups = (reg, TrainOutcome.insufficientData) := by
    intro reg
    unfold train_time_series_model
    rw [hprep]
    rfl
  refine ⟨hprep, htrain, ?_, ?_, ?_⟩
  · simp [train_all_models, htrain]
  · simp [train_all_models, htrain]
  · simp [train_all_models, htrain]

/-- Witness for C7: a single location group of three rows (below window
length 8) yields no sequences, the insufficient-data outcome, and a final
registry with the other three models and no time_series entry. -/
theorem C7_sequence_insufficient_data_witness :
    prepare_time_series_data
        [("23.34_85.31", [⟨"23.34_85.31", 0, 0, []⟩, ⟨"23.34_85.31", 1, 0, []⟩,
          ⟨"23.34_85.31", 2, 0, []⟩])] = []
    ∧ (train_all_models
        [("23.34_85.31", [⟨"23.34_85.31", 0, 0, []⟩, ⟨"23.34_85.31", 1, 0, []⟩,
          ⟨"23.34_85.31", 2, 0, []⟩])]).1
        = ["issue_classifier", "risk_regressor", "anomaly_detector"] := by
  have h := C7_sequence_insufficient_data
    [("23.34_85.31", [⟨"23.34_85.31", 0, 0, []⟩, ⟨"23.34_85.31", 1, 0, []⟩,
      ⟨"23.34_85.31", 2, 0, []⟩])]
    (by intro g hg; rw [List.mem_singleton] at hg; subst hg; decide)
  exact ⟨h.1, h.2.2.1⟩

theorem linspace_length (a b : ℚ) (n : ℕ) : (linspace a b n).length = n := by
  unfold linspace
  split_ifs with h1 h2
  · simp [h1]
  · simp [h2]
  · rw [List.length_map, List.length_range]

theorem heatmap_points_length (clat clng latOff lngOff : ℚ) (n : ℕ) :
    (heatmap_points clat clng latOff lngOff n).length = n * n := by
  unfold heatmap_points
  rw [List.length_flatMap]
  have hmap : (linspace (clat - latOff) (clat + latOff) n).map
      (List.length ∘ fun la =>
        (linspace (clng - lngOff) (clng + lngOff) n).map (fun lo => (la, lo)))
      = (linspace (clat - latOff) (clat + latOff) n).map (fun _ => n) := by
    apply List.map_congr_left
    intro la _
    simp [linspace_length]
  rw [hmap, List.map_const', List.sum_replicate, linspace_length, smul_eq_mul]

theorem offset_bound {q off : ℚ} (h1 : -2 ≤ q) (h2 : q ≤ 2) (hoff : 0 ≤ off) :
    -off ≤ q * off / 2 ∧ q * off / 2 ≤ off := by
  constructor <;> nlinarith

theorem grid_mem_bounds {clat clng latOff lngOff : ℚ} {p : ℚ × ℚ}
    (hlat : 0 ≤ latOff) (hlng : 0 ≤ lngOff)
    (hp : p ∈ generate_location_grid clat clng latOff lngOff) :
    clat - latOff ≤ p.1 ∧ p.1 ≤ clat + latOff
    ∧ clng - lngOff ≤ p.2 ∧ p.2 ≤ clng + lngOff := by
  unfold generate_location_grid at hp
  obtain ⟨i, hi, hp2⟩ := List.mem_flatMap.mp hp
  obtain ⟨j, hj, heq⟩ := List.mem_map.mp hp2
  rw [List.mem_range] at hi
  rw [List.mem_range] at hj
  subst heq
  have hi2 : ((i : ℚ) - 2) ≤ 2 ∧ -2 ≤ ((i : ℚ) - 2) := by
    constructor
    · have : (i : ℚ) ≤ 4 := by exact_mod_cast Nat.lt_succ_iff.mp hi
      linarith
    · have : (0 : ℚ) ≤ (i : ℚ) := by positivity
      linarith
  have hj2 : ((j : ℚ) - 2) ≤ 2 ∧ -2 ≤ ((j : ℚ) - 2) := by
    constructor
    · have : (j : ℚ) ≤ 4 := by exact_mod_cast Nat.lt_succ_iff.mp hj
      linarith
    · have : (0 : ℚ) ≤ (j : ℚ) := by positivity
      linarith
  obtain ⟨hb1, hb2⟩ := offset_bound hi2.2 hi2.1 hlat
  obtain ⟨hb3, hb4⟩ := offset_bound hj2.2 hj2.1 hlng
  dsimp only
  exact ⟨by linarith, by linarith, by linarith, by linarith⟩

/-- Claim C8: with radius 10 km the latitude offset is 10/111 degrees, the
5-step grid enumerates exactly 25 sample points, each lying inside the
bounds box center plus or minus the offsets (for any nonnegative longitude
offset, which stands for 10/(111 cos lat)); and the heatmap for any
requested resolution N contains exactly N squared grid points. -/
theorem C8_grid_and_heatmap (center_lat center_lng lngOff : ℚ) (hlng : 0 ≤ lngOff) :
    (generate_location_grid center_lat center_lng (10 / 111) lngOff).length = 25
    ∧ (∀ p ∈ generate_location_grid center_lat center_lng (10 / 111) lngOff,
        center_lat - 10 / 111 ≤ p.1 ∧ p.1 ≤ center_lat + 10 / 111
        ∧ center_lng - lngOff ≤ p.2 ∧ p.2 ≤ center_lng + lngOff)
    ∧ (∀ (latOff lngOff2 : ℚ) (n : ℕ),
        (heatmap_points center_lat center_lng latOff lngOff2 n).length = n * n) := by
  refine ⟨?_, ?_, ?_⟩
  · rfl
  · intro p hp
    exact grid_mem_bounds (by norm_num) hlng hp
  · intro latOff lngOff2 n
    exact heatmap_points_length center_lat center_lng latOff lngOff2 n

/-- Witness for C8: at center (0, 0) with a longitude offset of 1/10, the
grid has 25 points, the point built from grid step (0, 0) lies in the
bounds box, and a resolution-3 heatmap has 9 points. -/
theorem C8_grid_and_heatmap_witness :
    (generate_location_grid 0 0 (10 / 111) (1 / 10)).length = 25
    ∧ (heatmap_points 0 0 (10 / 111) (1 / 10) 3).length = 3 * 3 := by
  have h := C8_grid_and_heatmap 0 0 (1 / 10) (by norm_num)
  exact ⟨h.1, h.2.2 (10 / 111) (1 / 10) 3⟩

/-- Claim C10: every risk area returned by the spatial scan has risk score
strictly above 0.6, and its derived risk level is high or critical — never
low or medium — for every center, offsets, distance function, noise
function, issue list and density assignment. -/
theorem C10_risk_areas_high (center_lat center_lng latOff lngOff : ℚ)
    (distOf noiseOf : ℚ → ℚ → ℚ) (issuesOf : ℚ → ℚ → List String)
    (densityOf : ℚ → ℚ → ℚ) (a : RiskArea)
    (ha : a ∈ identify_risk_areas center_lat center_lng latOff lngOff distOf noiseOf
      issuesOf densityOf) :
    0.6 < a.risk_score
    ∧ (a.risk_level = "high" ∨ a.risk_level = "critical")
    ∧ a.risk_level ≠ "low" ∧ a.risk_level ≠ "medium" := by
  unfold identify_risk_areas at ha
  obtain ⟨loc, _, heq⟩ := List.mem_filterMap.mp ha
  by_cases hr : calculate_location_risk (distOf loc.1 loc.2) (noiseOf loc.1 loc.2) > 0.6
  · rw [if_pos hr] at heq
    obtain rfl := Option.some.inj heq
    refine ⟨hr, ?_⟩
    have hlevel : get_risk_level
        (calculate_location_risk (distOf loc.1 loc.2) (noiseOf loc.1 loc.2)) = "high"
        ∨ get_risk_level
        (calculate_location_risk (distOf loc.1 loc.2) (noiseOf loc.1 loc.2)) = "critical" := by
      unfold get_risk_level
      split_ifs with h1 h2 h3
      · right; rfl
      · left; rfl
      · exact absurd hr (by push_neg; linarith)
      · exact absurd hr (by push_neg; linarith)
    refine ⟨hlevel, ?_, ?_⟩
    · rcases hlevel with h | h
      · rw [h]
        exact fun hcon => absurd hcon (show ("high" : String) ≠ "low" by decide)
      · rw [h]
        exact fun hcon => absurd hcon (show ("critical" : String) ≠ "low" by decide)
    · rcases hlevel with h | h
      · rw [h]
        exact fun hcon => absurd hcon (show ("high" : String) ≠ "medium" by decide)
      · rw [h]
        exact fun hcon => absurd hcon (show ("critical" : String) ≠ "medium" by decide)
  · rw [if_neg hr] at heq
    exact absurd heq (by simp)

/-- Witness for C10: with every grid point at distance 2 and zero noise,
the scan around center (0, 0) returns the concrete area at (-1/2, -1/2)
with risk score 1, labelled critical. -/
theorem C10_risk_areas_high_witness :
    0.6 < criticalArea.risk_score
    ∧ (criticalArea.risk_level = "high" ∨ criticalArea.risk_level = "critical") := by
  have hrisk : calculate_location_risk 2 0 = 1 := by
    unfold calculate_location_risk
    norm_num
  have hlevel : get_risk_level 1 = "critical" := by
    unfold get_risk_level
    rw [if_pos (by norm_num)]
  have hmem : criticalArea
      ∈ identify_risk_areas 0 0 1 1 (fun _ _ => 2) (fun _ _ => 0) (fun _ _ => [])
          (fun _ _ => 0) := by
    unfold identify_risk_areas
    rw [List.mem_filterMap]
    refine ⟨((-1 : ℚ) / 2, (-1 : ℚ) / 2), ?_, ?_⟩
    · unfold generate_location_grid
      rw [List.mem_flatMap]
      refine ⟨1, by rw [List.mem_range]; norm_num, ?_⟩
      rw [List.mem_map]
      refine ⟨1, by rw [List.mem_range]; norm_num, ?_⟩
      rw [Prod.ext_iff]
      constructor <;> norm_num
    · dsimp only
      rw [hrisk, if_pos (by norm_num), hlevel]
      rfl
  have h := C10_risk_areas_high 0 0 1 1 (fun _ _ => 2) (fun _ _ => 0) (fun _ _ => [])
    (fun _ _ => 0) criticalArea hmem
  exact ⟨h.1, h.2.1⟩

/-- Claim C9: every risk-bearing quantity stays in the unit interval at its
point of computation — classifier items (given per-class probabilities in
the unit interval, as predict_proba returns), regressor items (for every
raw model output), time-series items, fallback items, risk-area location
scores (for nonnegative distance and noise, the support of the draw), grid
risk scores (for nonnegative random and age factors, the support of the
draws), and the overall risk score. -/
theorem C9_risk_scores_clamped :
    (∀ probs : List (String × ℚ), (∀ cp ∈ probs, 0 ≤ cp.2 ∧ cp.2 ≤ 1) →
      ∀ item ∈ predict_categories probs, 0 ≤ item.risk_score ∧ item.risk_score ≤ 1)
    ∧ (∀ raw : ℚ, ∀ item ∈ predict_risk_scores raw,
        0 ≤ item.risk_score ∧ item.risk_score ≤ 1)
    ∧ (∀ timeframe : String, ∀ item ∈ predict_time_series timeframe,
        0 ≤ item.risk_score ∧ item.risk_score ≤ 1)
    ∧ (∀ w : Option Weather, ∀ item ∈ generate_fallback_predictions w,
        0 ≤ item.risk_score ∧ item.risk_score ≤ 1)
    ∧ (∀ dist noise : ℚ, 0 ≤ dist → 0 ≤ noise →
        0 ≤ calculate_location_risk dist noise ∧ calculate_location_risk dist noise ≤ 1)
    ∧ (∀ lat lng dist random_factor age_factor : ℚ,
        0 ≤ random_factor → 0 ≤ age_factor →
        0 ≤ calculate_grid_risk lat lng dist random_factor age_factor
        ∧ calculate_grid_risk lat lng dist random_factor age_factor ≤ 1)
    ∧ (∀ (ps : List PredictionItem) (ar : List RiskArea),
        (∀ p ∈ ps, 0 ≤ p.probability ∧ p.probability ≤ 1
          ∧ 0 ≤ p.risk_score ∧ p.risk_score ≤ 1) →
        (∀ a ∈ ar, 0 ≤ a.risk_score ∧ a.risk_score ≤ 1) →
        0 ≤ calculate_overall_risk ps ar ∧ calculate_overall_risk ps ar ≤ 1) := by
  refine ⟨?_, ?_, ?_, ?_, ?_, ?_, ?_⟩
  · intro probs hb item hitem
    unfold predict_categories at hitem
    have h1 := List.mem_of_mem_take hitem
    rw [List.mem_mergeSort] at h1
    obtain ⟨cp, hcp, rfl⟩ := List.mem_map.mp h1
    have hcpm := (List.mem_filter.mp hcp).1
    obtain ⟨h0, h1'⟩ := hb cp hcpm
    unfold make_category_item
    dsimp only
    constructor
    · nlinarith
    · nlinarith
  · intro raw item hitem
    unfold predict_risk_scores at hitem
    rw [List.mem_singleton] at hitem
    subst hitem
    dsimp only
    unfold clamp01
    constructor
    · exact le_max_left 0 _
    · exact max_le (by norm_num) (min_le_left _ _)
  · intro timeframe item hitem
    unfold predict_time_series at hitem
    rw [List.mem_singleton] at hitem
    subst hitem
    norm_num
  · intro w item hitem
    unfold generate_fallback_predictions at hitem
    have hroad : (0 : ℚ) ≤ roadFallbackItem.risk_score
        ∧ roadFallbackItem.risk_score ≤ 1 := by
      unfold roadFallbackItem
      norm_num
    have hwater : (0 : ℚ) ≤ waterFallbackItem.risk_score
        ∧ waterFallbackItem.risk_score ≤ 1 := by
      unfold waterFallbackItem
      norm_num
    rcases w with _ | w
    · rw [List.nil_append, List.mem_singleton] at hitem
      subst hitem
      exact hroad
    · rw [List.mem_append] at hitem
      rcases hitem with hitem | hitem
      · dsimp only at hitem
        split_ifs at hitem
        · rw [List.mem_singleton] at hitem
          subst hitem
          exact hwater
        · exact absurd hitem (List.not_mem_nil item)
      · rw [List.mem_singleton] at hitem
        subst hitem
        exact hroad
  · intro dist noise hd hn
    unfold calculate_location_risk
    dsimp only
    constructor
    · apply le_min (by norm_num)
      have hbase : (0 : ℚ) ≤ min 1 (dist * 0.5) := le_min (by norm_num) (by positivity)
      linarith
    · exact min_le_left _ _
  · intro lat lng dist random_factor age_factor hrf haf
    unfold calculate_grid_risk get_infrastructure_risk
    dsimp only
    constructor
    · apply le_min (by norm_num)
      have h1 : (0 : ℚ) ≤ max 0 (1 - dist * 10) := le_max_left 0 _
      have h2 : (0 : ℚ) ≤ (if |lat - 23.3441| < 0.1 ∧ |lng - 85.3096| < 0.1
          then (1 : ℚ) else 0.6) := by
        split_ifs <;> norm_num
      have h3 : (0 : ℚ) ≤ max 0 (1 - dist * 10) * 0.3 := by positivity
      have h4 : (0 : ℚ) ≤ random_factor * 0.4 := by positivity
      have h5 : (0 : ℚ) ≤ (if |lat - 23.3441| < 0.1 ∧ |lng - 85.3096| < 0.1
          then (1 : ℚ) else 0.6) * age_factor * 0.3 := by positivity
      linarith
    · exact min_le_left _ _
  · intro ps ar hp ha
    have heq := overallRisk_eq_claim hp ha
    obtain ⟨b0, b1⟩ := claimOverallRisk_bounds hp ha
    exact ⟨heq ▸ b0, heq ▸ b1⟩

/-- Witness for C9: concrete instances of each clamped quantity — a
classifier item at probability one half, a regressor item at raw output 2,
the time-series item, a fallback item, the location risk at distance 1 and
noise 1/10, the grid risk at the urban center, and the overall risk of the
half item with the 0.3 area. -/
theorem C9_risk_scores_clamped_witness :
    (0 ≤ (make_category_item "Water Supply" (1 / 2)).risk_score
      ∧ (make_category_item "Water Supply" (1 / 2)).risk_score ≤ 1)
    ∧ (0 ≤ clamp01 2 ∧ clamp01 2 ≤ 1)
    ∧ (0 ≤ (0.3 : ℚ) ∧ (0.3 : ℚ) ≤ 1)
    ∧ (0 ≤ roadFallbackItem.risk_score ∧ roadFallbackItem.risk_score ≤ 1)
    ∧ (0 ≤ calculate_location_risk 1 (1 / 10)
      ∧ calculate_location_risk 1 (1 / 10) ≤ 1)
    ∧ (0 ≤ calculate_grid_risk 23.3441 85.3096 0 (1 / 2) (1 / 2)
      ∧ calculate_grid_risk 23.3441 85.3096 0 (1 / 2) (1 / 2) ≤ 1)
    ∧ (0 ≤ calculate_overall_risk [halfItem] [area03]
      ∧ calculate_overall_risk [halfItem] [area03] ≤ 1) := by
  have hb : ∀ cp ∈ [("Water Supply", (1 : ℚ) / 2)], 0 ≤ cp.2 ∧ cp.2 ≤ 1 := by
    intro cp hcp
    rw [List.mem_singleton] at hcp
    subst hcp
    norm_num
  have hmem : make_category_item "Water Supply" (1 / 2)
      ∈ predict_categories [("Water Supply", (1 : ℚ) / 2)] := by
    unfold predict_categories
    have hfilter : List.filter (fun cp => decide (cp.2 > 0.1))
        [("Water Supply", (1 : ℚ) / 2)] = [("Water Supply", (1 : ℚ) / 2)] := by
      rw [List.filter_cons_of_pos (by norm_num), List.filter_nil]
    rw [hfilter, List.map_singleton, List.mergeSort_singleton]
    exact List.mem_singleton.mpr rfl
  have hhp : ∀ p ∈ [halfItem],
      0 ≤ p.probability ∧ p.probability ≤ 1
        ∧ 0 ≤ p.risk_score ∧ p.risk_score ≤ 1 := by
    intro p hp
    rw [List.mem_singleton] at hp
    subst hp
    norm_num [halfItem]
  have hha : ∀ a ∈ [area03], 0 ≤ a.risk_score ∧ a.risk_score ≤ 1 := by
    intro a hp
    rw [List.mem_singleton] at hp
    subst hp
    norm_num [area03]
  exact ⟨C9_risk_scores_clamped.1 [("Water Supply", (1 : ℚ) / 2)] hb _ hmem,
    C9_risk_scores_clamped.2.1 2 _ (List.mem_singleton.mpr rfl),
    C9_risk_scores_clamped.2.2.1 "7_days" _ (List.mem_singleton.mpr rfl),
    C9_risk_scores_clamped.2.2.2.1 none _ (List.mem_singleton.mpr rfl),
    C9_risk_scores_clamped.2.2.2.2.1 1 (1 / 10) (by norm_num) (by norm_num),
    C9_risk_scores_clamped.2.2.2.2.2.1 23.3441 85.3096 0 (1 / 2) (1 / 2)
      (by norm_num) (by norm_num),
    C9_risk_scores_clamped.2.2.2.2.2.2 [halfItem] [area03] hhp hha⟩

end Civic
